import Mathlib

/-!
Verification of the Period GAP calculation engine of `vti_gap_analysis`.

The development shallowly embeds the core computation modules:

* `utils/period_gap/gap_calculator.py` — the per-product carry-forward /
  backlog simulator `calculate_gap_with_carry_forward`;
* `utils/period_gap/shortage_analyzer.py` — `categorize_main_category`,
  `categorize_timing_issues`;
* `utils/period_gap/helpers.py` — the overall summary statistics block of
  `create_metadata_sheet`;
* `utils/period_gap/period_helpers.py` — `convert_to_period`,
  `parse_week_period`, `parse_month_period`, `is_past_period`.

Quantities that the Python code holds as floats are modelled as exact
rationals (`ℚ`); the verified claims are arithmetic identities that do not
depend on rounding.  DataFrame rows become Lean structures holding the
columns the embedded functions read and write; descriptive pass-through
columns (brand, product_name, package_size, standard_uom) are omitted.
-/

namespace VtiGap

/-- One aggregated input row of the per-product period table produced by
`PeriodBasedGAPProcessor.process_for_gap`: the columns
`period`, `demand_quantity`, `supply_quantity` read by
`calculate_gap_with_carry_forward` (gap_calculator.py). -/
structure InRow where
  period : String
  demand_quantity : ℚ
  supply_quantity : ℚ
deriving Repr, DecidableEq

/-- One output row of `calculate_gap_with_carry_forward`
(gap_calculator.py, the `result_row` dict).  In the source the keys
`backlog_qty`, `effective_demand`, `backlog_to_next` are added to the dict
only when `track_backlog` is true; the embedding always records the values
of the corresponding local variables (`backlog_from_previous`,
`effective_demand`, `backlog`), which in independent mode are
`0`, `demand_quantity` and the never-reassigned `0` respectively. -/
structure GapRow where
  pt_code : String
  period : String
  begin_inventory : ℚ
  supply_in_period : ℚ
  total_available : ℚ
  total_demand_qty : ℚ
  gap_quantity : ℚ
  fulfillment_rate_percent : ℚ
  fulfillment_status : String
  backlog_qty : ℚ
  effective_demand : ℚ
  backlog_to_next : ℚ
deriving Repr, DecidableEq

/-- Inner loop of `calculate_gap_with_carry_forward`
(gap_calculator.py lines 70-152): sequential fold over one product's
period rows (already sorted ascending upstream), threading the state
`(carry_forward, backlog)`.  Direct translation of the two branches on
`track_backlog`. -/
def processRows (pt_code : String) (track_backlog : Bool)
    (carry_forward backlog : ℚ) : List InRow → List GapRow
  | [] => []
  | row :: rest =>
    let begin_inventory := carry_forward
    let backlog_from_previous := backlog
    if track_backlog then
      let effective_demand := row.demand_quantity + backlog
      let total_available := row.supply_quantity + carry_forward
      let gap := total_available - effective_demand
      let carry2 := if gap ≥ 0 then gap else 0
      let backlog2 := if gap ≥ 0 then 0 else |gap|
      let fulfillment_rate :=
        if effective_demand > 0 then
          min 100 (total_available / effective_demand * 100)
        else if total_available > 0 then (100 : ℚ) else 0
      let status := if gap ≥ 0 then "✅ Fulfilled" else "❌ Shortage"
      { pt_code := pt_code
        period := row.period
        begin_inventory := begin_inventory
        supply_in_period := row.supply_quantity
        total_available := total_available
        total_demand_qty := row.demand_quantity
        gap_quantity := gap
        fulfillment_rate_percent := fulfillment_rate
        fulfillment_status := status
        backlog_qty := backlog_from_previous
        effective_demand := effective_demand
        backlog_to_next := backlog2 } ::
        processRows pt_code track_backlog carry2 backlog2 rest
    else
      let total_available := row.supply_quantity + carry_forward
      let gap := total_available - row.demand_quantity
      let fulfillment_rate :=
        if row.demand_quantity > 0 then
          min 100 (total_available / row.demand_quantity * 100)
        else if total_available > 0 then (100 : ℚ) else 0
      let carry2 := max 0 gap
      let status := if gap ≥ 0 then "✅ Fulfilled" else "❌ Shortage"
      { pt_code := pt_code
        period := row.period
        begin_inventory := begin_inventory
        supply_in_period := row.supply_quantity
        total_available := total_available
        total_demand_qty := row.demand_quantity
        gap_quantity := gap
        fulfillment_rate_percent := fulfillment_rate
        fulfillment_status := status
        backlog_qty := 0
        effective_demand := row.demand_quantity
        backlog_to_next := backlog } ::
        processRows pt_code track_backlog carry2 backlog rest

/-- Successive values of the simulator state `(carry_forward, backlog)`,
including the initial state and the state left after the last period;
mirrors the state updates of `processRows`. -/
def gapStates (track_backlog : Bool) (carry_forward backlog : ℚ) :
    List InRow → List (ℚ × ℚ)
  | [] => [(carry_forward, backlog)]
  | row :: rest =>
    if track_backlog then
      let effective_demand := row.demand_quantity + backlog
      let total_available := row.supply_quantity + carry_forward
      let gap := total_available - effective_demand
      let carry2 := if gap ≥ 0 then gap else 0
      let backlog2 := if gap ≥ 0 then 0 else |gap|
      (carry_forward, backlog) :: gapStates track_backlog carry2 backlog2 rest
    else
      let total_available := row.supply_quantity + carry_forward
      let gap := total_available - row.demand_quantity
      let carry2 := max 0 gap
      (carry_forward, backlog) :: gapStates track_backlog carry2 backlog rest

/-- Outcome of one backlog-mode period written from the claim's words
(not from the source), for comparison with `processRows`:
`effective_demand = demand_quantity + backlog`,
`total_available = supply_quantity + carry_forward`,
`gap = total_available - effective_demand`; next state `(gap, 0)` when
`gap ≥ 0`, else `(0, |gap|)`; fulfillment
`min 100 (total_available / effective_demand * 100)` when
`effective_demand > 0`, else `100` when `total_available > 0`, else `0`. -/
structure SpecStep where
  effective_demand : ℚ
  total_available : ℚ
  gap : ℚ
  fulfillment : ℚ
  next : ℚ × ℚ
deriving Repr, DecidableEq

/-- Backlog-mode step per the specification text (see `SpecStep`). -/
def specBacklogStep (state : ℚ × ℚ) (row : InRow) : SpecStep :=
  let effective_demand := row.demand_quantity + state.2
  let total_available := row.supply_quantity + state.1
  let gap := total_available - effective_demand
  { effective_demand := effective_demand
    total_available := total_available
    gap := gap
    fulfillment :=
      if effective_demand > 0 then
        min 100 (total_available / effective_demand * 100)
      else if total_available > 0 then (100 : ℚ) else 0
    next := if gap ≥ 0 then (gap, 0) else (0, |gap|) }

/-- Independent-mode step per the specification text:
`total_available = supply_quantity + carry_forward`,
`gap = total_available - demand_quantity`, next carry `max 0 gap`, no
backlog, `effective_demand = demand_quantity`. -/
def specIndependentStep (carry_forward : ℚ) (row : InRow) : SpecStep :=
  let total_available := row.supply_quantity + carry_forward
  let gap := total_available - row.demand_quantity
  { effective_demand := row.demand_quantity
    total_available := total_available
    gap := gap
    fulfillment :=
      if row.demand_quantity > 0 then
        min 100 (total_available / row.demand_quantity * 100)
      else if total_available > 0 then (100 : ℚ) else 0
    next := (max 0 gap, 0) }

/-- Two-week worked example of the specification: Week1 demand 100 /
supply 60, Week2 demand 50 / supply 100. -/
def exampleWeeks : List InRow :=
  [{ period := "Week 1 - 2025", demand_quantity := 100, supply_quantity := 60 },
   { period := "Week 2 - 2025", demand_quantity := 50, supply_quantity := 100 }]

/-- Backlog-mode period gap, as computed by the simulator. -/
def gapB (c b : ℚ) (row : InRow) : ℚ :=
  row.supply_quantity + c - (row.demand_quantity + b)

/-- Backlog-mode next `carry_forward`. -/
def nextCarryB (c b : ℚ) (row : InRow) : ℚ :=
  if gapB c b row ≥ 0 then gapB c b row else 0

/-- Backlog-mode next `backlog`. -/
def nextBacklogB (c b : ℚ) (row : InRow) : ℚ :=
  if gapB c b row ≥ 0 then 0 else |gapB c b row|

/-- The row emitted by one backlog-mode step of the simulator. -/
def mkRowB (pt : String) (c b : ℚ) (row : InRow) : GapRow :=
  { pt_code := pt
    period := row.period
    begin_inventory := c
    supply_in_period := row.supply_quantity
    total_available := row.supply_quantity + c
    total_demand_qty := row.demand_quantity
    gap_quantity := gapB c b row
    fulfillment_rate_percent :=
      if row.demand_quantity + b > 0 then
        min 100 ((row.supply_quantity + c) / (row.demand_quantity + b) * 100)
      else if row.supply_quantity + c > 0 then (100 : ℚ) else 0
    fulfillment_status := if gapB c b row ≥ 0 then "✅ Fulfilled" else "❌ Shortage"
    backlog_qty := b
    effective_demand := row.demand_quantity + b
    backlog_to_next := nextBacklogB c b row }

/-- Independent-mode period gap, as computed by the simulator. -/
def gapI (c : ℚ) (row : InRow) : ℚ :=
  row.supply_quantity + c - row.demand_quantity

/-- The row emitted by one independent-mode step of the simulator. -/
def mkRowI (pt : String) (c b : ℚ) (row : InRow) : GapRow :=
  { pt_code := pt
    period := row.period
    begin_inventory := c
    supply_in_period := row.supply_quantity
    total_available := row.supply_quantity + c
    total_demand_qty := row.demand_quantity
    gap_quantity := gapI c row
    fulfillment_rate_percent :=
      if row.demand_quantity > 0 then
        min 100 ((row.supply_quantity + c) / row.demand_quantity * 100)
      else if row.supply_quantity + c > 0 then (100 : ℚ) else 0
    fulfillment_status := if gapI c row ≥ 0 then "✅ Fulfilled" else "❌ Shortage"
    backlog_qty := 0
    effective_demand := row.demand_quantity
    backlog_to_next := b }

/-- Unfolding of one backlog-mode simulator step. -/
theorem processRows_true_cons (pt : String) (c b : ℚ) (row : InRow)
    (rest : List InRow) :
    processRows pt true c b (row :: rest)
      = mkRowB pt c b row ::
          processRows pt true (nextCarryB c b row) (nextBacklogB c b row) rest := rfl

/-- Unfolding of one independent-mode simulator step. -/
theorem processRows_false_cons (pt : String) (c b : ℚ) (row : InRow)
    (rest : List InRow) :
    processRows pt false c b (row :: rest)
      = mkRowI pt c b row :: processRows pt false (max 0 (gapI c row)) b rest := rfl

/-- Unfolding of one backlog-mode state step. -/
theorem gapStates_true_cons (c b : ℚ) (row : InRow) (rest : List InRow) :
    gapStates true c b (row :: rest)
      = (c, b) :: gapStates true (nextCarryB c b row) (nextBacklogB c b row) rest := rfl

/-- Unfolding of one independent-mode state step. -/
theorem gapStates_false_cons (c b : ℚ) (row : InRow) (rest : List InRow) :
    gapStates false c b (row :: rest)
      = (c, b) :: gapStates false (max 0 (gapI c row)) b rest := rfl

/-- States produced by a run of `gapStates` are never the empty list. -/
theorem gapStates_ne_nil (tb : Bool) (c b : ℚ) (rows : List InRow) :
    gapStates tb c b rows ≠ [] := by
  cases rows with
  | nil => simp [gapStates]
  | cons row rest => cases tb <;> simp [gapStates_true_cons, gapStates_false_cons]

/-- The emitted rows' `(begin_inventory, backlog_qty)` columns are exactly
the backlog-mode state sequence without its final element. -/
theorem processRows_true_states (pt : String) (c b : ℚ) (rows : List InRow) :
    (processRows pt true c b rows).map (fun r => (r.begin_inventory, r.backlog_qty))
      = (gapStates true c b rows).dropLast := by
  induction rows generalizing c b with
  | nil => simp [processRows, gapStates]
  | cons row rest ih =>
    rw [processRows_true_cons, gapStates_true_cons,
      List.dropLast_cons_of_ne_nil (gapStates_ne_nil true _ _ rest),
      List.map_cons, ih]
    rfl

/-- Helper invariant for the backlog-mode state: starting from a
non-negative, mutually exclusive state, every reachable state is
non-negative and has at most one non-zero component. -/
theorem backlogStateInvariant (rows : List InRow) :
    ∀ c b : ℚ, 0 ≤ c → 0 ≤ b → (c = 0 ∨ b = 0) →
      ∀ s ∈ gapStates true c b rows, 0 ≤ s.1 ∧ 0 ≤ s.2 ∧ (s.1 = 0 ∨ s.2 = 0) := by
  induction rows with
  | nil =>
    intro c b hc hb hcb s hs
    simp [gapStates] at hs
    subst hs
    exact ⟨hc, hb, hcb⟩
  | cons row rest ih =>
    intro c b hc hb hcb s hs
    rw [gapStates_true_cons] at hs
    rcases List.mem_cons.mp hs with rfl | hs
    · exact ⟨hc, hb, hcb⟩
    · by_cases hg : gapB c b row ≥ 0
      · exact ih (nextCarryB c b row) (nextBacklogB c b row)
          (by simp [nextCarryB, hg])
          (by simp [nextBacklogB, hg])
          (Or.inr (by simp [nextBacklogB, hg])) s hs
      · exact ih (nextCarryB c b row) (nextBacklogB c b row)
          (by simp [nextCarryB, hg])
          (by simp [nextBacklogB, hg])
          (Or.inl (by simp [nextCarryB, hg])) s hs

/-- C1: in backlog-tracking mode the simulator folds over a product's
periods from state `(0, 0)`, computing at each period
`effective_demand = demand_quantity + backlog`,
`total_available = supply_quantity + carry_forward`,
`gap = total_available - effective_demand`, next state `(gap, 0)` when
`gap ≥ 0` and `(0, |gap|)` otherwise, and the capped fulfillment rate; on
the Week1 demand 100 / supply 60, Week2 demand 50 / supply 100 example it
yields gap −40, backlog 40, fulfillment 60 for Week1 and effective demand
90, total available 100, gap +10, carry-forward 10, cleared backlog,
fulfillment capped at 100 for Week2. -/
theorem backlog_mode_follows_spec :
    (∀ (pt : String) (c b : ℚ) (row : InRow) (rest : List InRow),
       processRows pt true c b (row :: rest)
         = { pt_code := pt
             period := row.period
             begin_inventory := c
             supply_in_period := row.supply_quantity
             total_available := (specBacklogStep (c, b) row).total_available
             total_demand_qty := row.demand_quantity
             gap_quantity := (specBacklogStep (c, b) row).gap
             fulfillment_rate_percent := (specBacklogStep (c, b) row).fulfillment
             fulfillment_status :=
               if (specBacklogStep (c, b) row).gap ≥ 0 then "✅ Fulfilled"
               else "❌ Shortage"
             backlog_qty := b
             effective_demand := (specBacklogStep (c, b) row).effective_demand
             backlog_to_next := (specBacklogStep (c, b) row).next.2 } ::
             processRows pt true (specBacklogStep (c, b) row).next.1
               (specBacklogStep (c, b) row).next.2 rest)
    ∧ processRows "P001" true 0 0 exampleWeeks =
        [{ pt_code := "P001", period := "Week 1 - 2025", begin_inventory := 0,
           supply_in_period := 60, total_available := 60, total_demand_qty := 100,
           gap_quantity := -40, fulfillment_rate_percent := 60,
           fulfillment_status := "❌ Shortage", backlog_qty := 0,
           effective_demand := 100, backlog_to_next := 40 },
         { pt_code := "P001", period := "Week 2 - 2025", begin_inventory := 0,
           supply_in_period := 100, total_available := 100, total_demand_qty := 50,
           gap_quantity := 10, fulfillment_rate_percent := 100,
           fulfillment_status := "✅ Fulfilled", backlog_qty := 40,
           effective_demand := 90, backlog_to_next := 0 }] := by
  constructor
  · intro pt c b row rest
    rw [processRows_true_cons]
    by_cases hg : row.supply_quantity + c - (row.demand_quantity + b) ≥ 0 <;>
      simp [mkRowB, specBacklogStep, nextCarryB, nextBacklogB, gapB, hg]
  · norm_num [processRows, exampleWeeks]

/-- C2: with backlog tracking the rollover state `(carry_forward, backlog)`
starting from `(0, 0)` stays non-negative in both components and after
every update at most one component is non-zero, so the two are never both
positive entering a period; the emitted rows' `(begin_inventory,
backlog_qty)` columns are exactly the entering states. -/
theorem backlog_state_exclusivity :
    ∀ (pt : String) (rows : List InRow),
      (∀ s ∈ gapStates true 0 0 rows, 0 ≤ s.1 ∧ 0 ≤ s.2 ∧ (s.1 = 0 ∨ s.2 = 0))
      ∧ (processRows pt true 0 0 rows).map (fun r => (r.begin_inventory, r.backlog_qty))
          = (gapStates true 0 0 rows).dropLast :=
  fun pt rows =>
    ⟨backlogStateInvariant rows 0 0 le_rfl le_rfl (Or.inl rfl),
     processRows_true_states pt 0 0 rows⟩

/-- C6: in independent-period mode each period computes
`total_available = supply_quantity + carry_forward`,
`gap = total_available - demand_quantity`, next carry `max 0 gap`,
`effective_demand` is the period's own demand and no backlog is carried;
in particular on the Week1 100/60, Week2 50/100 example Week2's gap is
`+50`. -/
theorem independent_mode_follows_spec :
    (∀ (pt : String) (c b : ℚ) (row : InRow) (rest : List InRow),
       processRows pt false c b (row :: rest)
         = { pt_code := pt
             period := row.period
             begin_inventory := c
             supply_in_period := row.supply_quantity
             total_available := (specIndependentStep c row).total_available
             total_demand_qty := row.demand_quantity
             gap_quantity := (specIndependentStep c row).gap
             fulfillment_rate_percent := (specIndependentStep c row).fulfillment
             fulfillment_status :=
               if (specIndependentStep c row).gap ≥ 0 then "✅ Fulfilled"
               else "❌ Shortage"
             backlog_qty := 0
             effective_demand := (specIndependentStep c row).effective_demand
             backlog_to_next := b } ::
             processRows pt false (specIndependentStep c row).next.1 b rest)
    ∧ (∀ (pt : String) (c : ℚ) (rows : List InRow),
        ∀ r ∈ processRows pt false c 0 rows,
          r.effective_demand = r.total_demand_qty ∧ r.backlog_qty = 0
            ∧ r.backlog_to_next = 0)
    ∧ processRows "P001" false 0 0 exampleWeeks =
        [{ pt_code := "P001", period := "Week 1 - 2025", begin_inventory := 0,
           supply_in_period := 60, total_available := 60, total_demand_qty := 100,
           gap_quantity := -40, fulfillment_rate_percent := 60,
           fulfillment_status := "❌ Shortage", backlog_qty := 0,
           effective_demand := 100, backlog_to_next := 0 },
         { pt_code := "P001", period := "Week 2 - 2025", begin_inventory := 0,
           supply_in_period := 100, total_available := 100, total_demand_qty := 50,
           gap_quantity := 50, fulfillment_rate_percent := 100,
           fulfillment_status := "✅ Fulfilled", backlog_qty := 0,
           effective_demand := 50, backlog_to_next := 0 }] := by
  refine ⟨?_, ?_, ?_⟩
  · intro pt c b row rest
    rw [processRows_false_cons]
    simp [mkRowI, specIndependentStep, gapI, max_comm]
  · intro pt c rows
    induction rows generalizing c with
    | nil => intro r hr; simp [processRows] at hr
    | cons row rest ih =>
      intro r hr
      rw [processRows_false_cons] at hr
      rcases List.mem_cons.mp hr with rfl | hr
      · simp [mkRowI]
      · exact ih _ r hr
  · norm_num [processRows, exampleWeeks]

/-- C10: in independent-period mode each emitted row's fulfillment rate is
`min 100 (total_available / demand * 100)` when the period's own demand is
positive, else `100` when total available is positive, else `0`. -/
theorem independent_mode_fulfillment :
    ∀ (pt : String) (c b : ℚ) (rows : List InRow),
      ∀ r ∈ processRows pt false c b rows,
        r.fulfillment_rate_percent =
          if r.total_demand_qty > 0 then
            min 100 (r.total_available / r.total_demand_qty * 100)
          else if r.total_available > 0 then 100 else 0 := by
  intro pt c b rows
  induction rows generalizing c b with
  | nil => intro r hr; simp [processRows] at hr
  | cons row rest ih =>
    intro r hr
    rw [processRows_false_cons] at hr
    rcases List.mem_cons.mp hr with rfl | hr
    · simp [mkRowI]
    · exact ih _ _ r hr

/-- First output row of the independent-mode run on `exampleWeeks`. -/
def exRowI1 : GapRow :=
  { pt_code := "P001", period := "Week 1 - 2025", begin_inventory := 0,
    supply_in_period := 60, total_available := 60, total_demand_qty := 100,
    gap_quantity := -40, fulfillment_rate_percent := 60,
    fulfillment_status := "❌ Shortage", backlog_qty := 0,
    effective_demand := 100, backlog_to_next := 0 }

/-- Witness for `backlog_state_exclusivity` at the state `(0, 40)` reached
after Week1 of the worked example. -/
theorem backlog_state_exclusivity_witness :
    0 ≤ ((0 : ℚ), (40 : ℚ)).1 ∧ 0 ≤ ((0 : ℚ), (40 : ℚ)).2
      ∧ (((0 : ℚ), (40 : ℚ)).1 = 0 ∨ ((0 : ℚ), (40 : ℚ)).2 = 0) :=
  (backlog_state_exclusivity "P001" exampleWeeks).1 (0, 40)
    (by norm_num [gapStates, exampleWeeks])

/-- Witness for `independent_mode_follows_spec` at the first emitted row of
the worked example. -/
theorem independent_mode_follows_spec_witness :
    exRowI1.effective_demand = exRowI1.total_demand_qty
      ∧ exRowI1.backlog_qty = 0 ∧ exRowI1.backlog_to_next = 0 :=
  independent_mode_follows_spec.2.1 "P001" 0 exampleWeeks exRowI1
    (by norm_num [processRows, exampleWeeks, exRowI1])

/-- Witness for `independent_mode_fulfillment` at the first emitted row of
the worked example. -/
theorem independent_mode_fulfillment_witness :
    exRowI1.fulfillment_rate_percent =
      if exRowI1.total_demand_qty > 0 then
        min 100 (exRowI1.total_available / exRowI1.total_demand_qty * 100)
      else if exRowI1.total_available > 0 then 100 else 0 :=
  independent_mode_fulfillment "P001" 0 0 exampleWeeks exRowI1
    (by norm_num [processRows, exampleWeeks, exRowI1])

/-- Unique keys in first-occurrence order; models
`gap_df['pt_code'].unique()` (pandas keeps the first occurrence). -/
def uniqueKeys : List String → List String
  | [] => []
  | x :: xs => x :: (uniqueKeys xs).filter (fun y => !(y == x))

/-- Membership in `uniqueKeys` agrees with membership in the list. -/
theorem mem_uniqueKeys (y : String) (l : List String) :
    y ∈ uniqueKeys l ↔ y ∈ l := by
  induction l with
  | nil => simp [uniqueKeys]
  | cons x xs ih =>
    by_cases hyx : y = x <;>
      simp [uniqueKeys, List.mem_filter, hyx, ih]

/-- Unique product codes of a GAP result, in order of first appearance. -/
def ptCodes (rows : List GapRow) : List String :=
  uniqueKeys (rows.map (·.pt_code))

/-- Per-product total demand, `product_df['total_demand_qty'].sum()`. -/
def totalDemandOf (p : String) (rows : List GapRow) : ℚ :=
  ((rows.filter fun r => r.pt_code == p).map (·.total_demand_qty)).sum

/-- Per-product total supply, `product_df['supply_in_period'].sum()`. -/
def totalSupplyOf (p : String) (rows : List GapRow) : ℚ :=
  ((rows.filter fun r => r.pt_code == p).map (·.supply_in_period)).sum

/-- The three mutually exclusive main categories of
`categorize_main_category` (shortage_analyzer.py). -/
inductive MainCategory
  | net_shortage
  | net_surplus
  | balanced
deriving Repr, DecidableEq

/-- Main category of one product: the `if / elif / else` cascade of
`categorize_main_category` (shortage_analyzer.py lines 49-57):
`total_supply < total_demand` → net_shortage, `total_supply >
total_demand` → net_surplus, else balanced. -/
def mainCategoryOf (p : String) (rows : List GapRow) : MainCategory :=
  if totalSupplyOf p rows < totalDemandOf p rows then .net_shortage
  else if totalDemandOf p rows < totalSupplyOf p rows then .net_surplus
  else .balanced

/-- Result sets of `categorize_main_category`. -/
structure MainCats where
  net_shortage : List String
  net_surplus : List String
  balanced : List String

/-- The set-building loop of `categorize_main_category`
(shortage_analyzer.py lines 44-67): each unique product code is added to
exactly the set selected by its main category. -/
def categorize_main_category (rows : List GapRow) : MainCats :=
  { net_shortage := (ptCodes rows).filter fun p => mainCategoryOf p rows == .net_shortage
    net_surplus := (ptCodes rows).filter fun p => mainCategoryOf p rows == .net_surplus
    balanced := (ptCodes rows).filter fun p => mainCategoryOf p rows == .balanced }

/-- Result sets of `categorize_timing_issues`. -/
structure TimingCats where
  timing_shortage : List String
  timing_surplus : List String

/-- The loop of `categorize_timing_issues` (shortage_analyzer.py lines
96-107): a product is flagged timing_shortage when any of its rows has
`gap_quantity < 0`, timing_surplus when any has `gap_quantity > 0`. -/
def categorize_timing_issues (rows : List GapRow) : TimingCats :=
  { timing_shortage := (ptCodes rows).filter fun p =>
      (rows.filter fun r => r.pt_code == p).any fun r => decide (r.gap_quantity < 0)
    timing_surplus := (ptCodes rows).filter fun p =>
      (rows.filter fun r => r.pt_code == p).any fun r => decide (0 < r.gap_quantity) }

/-- Membership in the net_shortage set, characterized. -/
theorem mem_net_shortage (rows : List GapRow) (p : String) :
    p ∈ (categorize_main_category rows).net_shortage
      ↔ p ∈ ptCodes rows ∧ totalSupplyOf p rows < totalDemandOf p rows := by
  simp only [categorize_main_category, List.mem_filter, beq_iff_eq, mainCategoryOf]
  split_ifs with h1 h2 <;> simp [h1]

/-- Membership in the net_surplus set, characterized. -/
theorem mem_net_surplus (rows : List GapRow) (p : String) :
    p ∈ (categorize_main_category rows).net_surplus
      ↔ p ∈ ptCodes rows ∧ totalDemandOf p rows < totalSupplyOf p rows := by
  simp only [categorize_main_category, List.mem_filter, beq_iff_eq, mainCategoryOf]
  split_ifs with h1 h2
  · simp [asymm h1]
  · simp [h2]
  · simp [h2]

/-- Membership in the balanced set, characterized. -/
theorem mem_balanced (rows : List GapRow) (p : String) :
    p ∈ (categorize_main_category rows).balanced
      ↔ p ∈ ptCodes rows ∧ totalSupplyOf p rows = totalDemandOf p rows := by
  simp only [categorize_main_category, List.mem_filter, beq_iff_eq, mainCategoryOf]
  split_ifs with h1 h2
  · simp [h1, ne_of_lt h1]
  · simp [h2, (ne_of_lt h2).symm]
  · simp [le_antisymm (not_lt.mp h2) (not_lt.mp h1)]

/-- Worked example of the specification for the categorizer: one product
with per-period gaps `[+10, -5, +10]`, total supply 20, total demand 5. -/
def exampleTimingRows : List GapRow :=
  [{ pt_code := "A", period := "Week 1 - 2025", begin_inventory := 0,
     supply_in_period := 10, total_available := 10, total_demand_qty := 0,
     gap_quantity := 10, fulfillment_rate_percent := 100,
     fulfillment_status := "✅ Fulfilled", backlog_qty := 0,
     effective_demand := 0, backlog_to_next := 0 },
   { pt_code := "A", period := "Week 2 - 2025", begin_inventory := 10,
     supply_in_period := 0, total_available := 10, total_demand_qty := 5,
     gap_quantity := -5, fulfillment_rate_percent := 0,
     fulfillment_status := "❌ Shortage", backlog_qty := 0,
     effective_demand := 5, backlog_to_next := 5 },
   { pt_code := "A", period := "Week 3 - 2025", begin_inventory := 0,
     supply_in_period := 10, total_available := 10, total_demand_qty := 0,
     gap_quantity := 10, fulfillment_rate_percent := 100,
     fulfillment_status := "✅ Fulfilled", backlog_qty := 5,
     effective_demand := 5, backlog_to_next := 0 }]

/-- C3: a product is net_shortage iff `Σ supply < Σ demand`, net_surplus
iff `Σ supply > Σ demand`, balanced iff the sums are equal; exactly one of
the three holds; and the main category is a function of the two aggregate
totals only, never of per-period gap signs. -/
theorem main_category_totals (rows : List GapRow) (p : String)
    (hp : p ∈ ptCodes rows) :
    ((p ∈ (categorize_main_category rows).net_shortage
        ↔ totalSupplyOf p rows < totalDemandOf p rows)
      ∧ (p ∈ (categorize_main_category rows).net_surplus
        ↔ totalDemandOf p rows < totalSupplyOf p rows)
      ∧ (p ∈ (categorize_main_category rows).balanced
        ↔ totalSupplyOf p rows = totalDemandOf p rows))
    ∧ ((p ∈ (categorize_main_category rows).net_shortage
          ∧ p ∉ (categorize_main_category rows).net_surplus
          ∧ p ∉ (categorize_main_category rows).balanced)
      ∨ (p ∉ (categorize_main_category rows).net_shortage
          ∧ p ∈ (categorize_main_category rows).net_surplus
          ∧ p ∉ (categorize_main_category rows).balanced)
      ∨ (p ∉ (categorize_main_category rows).net_shortage
          ∧ p ∉ (categorize_main_category rows).net_surplus
          ∧ p ∈ (categorize_main_category rows).balanced))
    ∧ (∀ rows2 : List GapRow,
        totalSupplyOf p rows = totalSupplyOf p rows2 →
        totalDemandOf p rows = totalDemandOf p rows2 →
        mainCategoryOf p rows = mainCategoryOf p rows2) := by
  refine ⟨⟨?_, ?_, ?_⟩, ?_, ?_⟩
  · simp [mem_net_shortage, hp]
  · simp [mem_net_surplus, hp]
  · simp [mem_balanced, hp]
  · rcases lt_trichotomy (totalSupplyOf p rows) (totalDemandOf p rows) with h | h | h
    · exact Or.inl (by
        simp [mem_net_shortage, mem_net_surplus, mem_balanced, hp, h, asymm h,
          ne_of_lt h])
    · exact Or.inr (Or.inr (by
        simp [mem_net_shortage, mem_net_surplus, mem_balanced, hp, h]))
    · exact Or.inr (Or.inl (by
        simp [mem_net_shortage, mem_net_surplus, mem_balanced, hp, h, asymm h,
          ne_of_gt h]))
  · intro rows2 hS hD
    simp [mainCategoryOf, hS, hD]

/-- Witness for `main_category_totals` on the `[+10, -5, +10]` example
product with total supply 20 and total demand 5. -/
theorem main_category_totals_witness :
    "A" ∈ (categorize_main_category exampleTimingRows).net_surplus
      ↔ totalDemandOf "A" exampleTimingRows < totalSupplyOf "A" exampleTimingRows :=
  (main_category_totals exampleTimingRows "A"
    (by simp [ptCodes, uniqueKeys, exampleTimingRows])).1.2.1

/-- C4: a product is flagged timing_shortage iff some row has
`gap_quantity < 0` and timing_surplus iff some row has `gap_quantity > 0`;
the flags are independent of each other and of the main category: the
`[+10, -5, +10]` example product carries both flags while its main
category is net_surplus. -/
theorem timing_flags_independent :
    (∀ (rows : List GapRow) (p : String),
       (p ∈ (categorize_timing_issues rows).timing_shortage
          ↔ ∃ r ∈ rows, r.pt_code = p ∧ r.gap_quantity < 0)
       ∧ (p ∈ (categorize_timing_issues rows).timing_surplus
          ↔ ∃ r ∈ rows, r.pt_code = p ∧ 0 < r.gap_quantity))
    ∧ "A" ∈ (categorize_timing_issues exampleTimingRows).timing_shortage
    ∧ "A" ∈ (categorize_timing_issues exampleTimingRows).timing_surplus
    ∧ mainCategoryOf "A" exampleTimingRows = .net_surplus := by
  refine ⟨?_, ?_, ?_, ?_⟩
  · intro rows p
    constructor
    · simp only [categorize_timing_issues, List.mem_filter, List.any_eq_true,
        beq_iff_eq, ptCodes, mem_uniqueKeys, List.mem_map,
        decide_eq_true_eq]
      constructor
      · rintro ⟨-, r, ⟨hr, hpt⟩, hneg⟩
        exact ⟨r, hr, hpt, hneg⟩
      · rintro ⟨r, hr, hpt, hneg⟩
        exact ⟨⟨r, hr, hpt⟩, r, ⟨hr, hpt⟩, hneg⟩
    · simp only [categorize_timing_issues, List.mem_filter, List.any_eq_true,
        beq_iff_eq, ptCodes, mem_uniqueKeys, List.mem_map,
        decide_eq_true_eq]
      constructor
      · rintro ⟨-, r, ⟨hr, hpt⟩, hpos⟩
        exact ⟨r, hr, hpt, hpos⟩
      · rintro ⟨r, hr, hpt, hpos⟩
        exact ⟨⟨r, hr, hpt⟩, r, ⟨hr, hpt⟩, hpos⟩
  · norm_num [categorize_timing_issues, exampleTimingRows, ptCodes, uniqueKeys]
  · norm_num [categorize_timing_issues, exampleTimingRows, ptCodes, uniqueKeys]
  · norm_num [mainCategoryOf, totalSupplyOf, totalDemandOf, exampleTimingRows]

/-- Overall summary statistics block of `create_metadata_sheet`
(helpers.py lines 188-235), restricted to the numeric quantities before
display formatting: aggregate demand, supply, net position, the
conditionally appended overall fill rate, and the shortage/surplus
totals. -/
structure OverallSummary where
  total_demand : ℚ
  total_supply : ℚ
  net_position : ℚ
  overall_fill_rate : Option ℚ
  total_shortage_qty : ℚ
  total_surplus_qty : ℚ
deriving Repr, DecidableEq

/-- Translation of the summary statistics of `create_metadata_sheet`
(helpers.py): the fill-rate row is only appended when aggregate demand is
positive, modelled with `Option`. -/
def metadataSummaryStats (rows : List GapRow) : OverallSummary :=
  let total_demand := (rows.map (·.total_demand_qty)).sum
  let total_supply := (rows.map (·.supply_in_period)).sum
  { total_demand := total_demand
    total_supply := total_supply
    net_position := total_supply - total_demand
    overall_fill_rate :=
      if total_demand > 0 then some (min 100 (total_supply / total_demand * 100))
      else none
    total_shortage_qty :=
      |((rows.filter fun r => decide (r.gap_quantity < 0)).map (·.gap_quantity)).sum|
    total_surplus_qty :=
      ((rows.filter fun r => decide (0 < r.gap_quantity)).map (·.gap_quantity)).sum }

/-- C5: the overall summary computed from the GAP rows reports an overall
fill rate of `min 100 (Σ supply / Σ demand * 100)` over the whole row set
(the row is emitted whenever aggregate demand is positive). -/
theorem overall_fill_rate_formula (rows : List GapRow)
    (hD : 0 < (rows.map (·.total_demand_qty)).sum) :
    (metadataSummaryStats rows).overall_fill_rate
      = some (min 100 ((rows.map (·.supply_in_period)).sum
          / (rows.map (·.total_demand_qty)).sum * 100)) := by
  simp [metadataSummaryStats, hD]

/-- Witness for `overall_fill_rate_formula` on the timing example rows
(total demand 5, total supply 20). -/
theorem overall_fill_rate_formula_witness :
    (metadataSummaryStats exampleTimingRows).overall_fill_rate
      = some (min 100 ((exampleTimingRows.map (·.supply_in_period)).sum
          / (exampleTimingRows.map (·.total_demand_qty)).sum * 100)) :=
  overall_fill_rate_formula exampleTimingRows (by norm_num [exampleTimingRows])

/-- Calendar date, modelling a normalized (midnight) pandas Timestamp or
Python `datetime.date` in the proleptic Gregorian calendar. -/
structure PyDate where
  year : Nat
  month : Nat
  day : Nat
deriving Repr, DecidableEq

/-- Gregorian leap-year rule. -/
def isLeapYear (y : Nat) : Bool :=
  y % 4 == 0 && (y % 100 != 0 || y % 400 == 0)

/-- Number of days of month `m` in year `y`. -/
def daysInMonth (y m : Nat) : Nat :=
  if m = 2 then (if isLeapYear y then 29 else 28)
  else if m = 4 ∨ m = 6 ∨ m = 9 ∨ m = 11 then 30
  else 31

/-- Days in year `y` before the first of month `m`. -/
def daysBeforeMonth (y m : Nat) : Nat :=
  (List.range (m - 1)).foldl (fun acc i => acc + daysInMonth y (i + 1)) 0

/-- Days before January 1 of year `y` (proleptic Gregorian, year 1 based),
as in CPython's `datetime._days_before_year`. -/
def daysBeforeYear (y : Nat) : Nat :=
  (y - 1) * 365 + (y - 1) / 4 - (y - 1) / 100 + (y - 1) / 400

/-- Proleptic Gregorian ordinal of a date (January 1 of year 1 is day 1),
as in CPython's `date.toordinal()`. -/
def toOrdinal (d : PyDate) : Int :=
  ((daysBeforeYear d.year + daysBeforeMonth d.year d.month + d.day : Nat) : Int)

/-- ISO weekday (Monday = 1 … Sunday = 7) of an ordinal; ordinal 1 is a
Monday. -/
def isoWeekdayOfOrdinal (o : Int) : Int :=
  (o - 1) % 7 + 1

/-- Ordinal of the Monday starting ISO week 1 of `year`, following
CPython's `datetime._isoweek1monday`. -/
def isoweek1monday (year : Nat) : Int :=
  let firstday := toOrdinal ⟨year, 1, 1⟩
  let firstweekday := (firstday + 6) % 7
  let week1monday := firstday - firstweekday
  if firstweekday > 3 then week1monday + 7 else week1monday

/-- The `(iso_year, iso_week)` pair of `date.isocalendar()`, following
CPython's implementation (floor division as in Python `divmod`). -/
def isocalendar (d : PyDate) : Nat × Nat :=
  let today := toOrdinal d
  let week := (today - isoweek1monday d.year).fdiv 7
  if week < 0 then
    (d.year - 1, ((today - isoweek1monday (d.year - 1)).fdiv 7 + 1).toNat)
  else if week ≥ 52 ∧ today ≥ isoweek1monday (d.year + 1) then (d.year + 1, 1)
  else (d.year, (week + 1).toNat)

/-- `strftime('%b')` month abbreviation. -/
def monthAbbr (m : Nat) : String :=
  match m with
  | 1 => "Jan" | 2 => "Feb" | 3 => "Mar" | 4 => "Apr"
  | 5 => "May" | 6 => "Jun" | 7 => "Jul" | 8 => "Aug"
  | 9 => "Sep" | 10 => "Oct" | 11 => "Nov" | 12 => "Dec"
  | _ => ""

/-- Zero-padded two-digit field. -/
def pad2 (n : Nat) : String :=
  if n < 10 then "0" ++ toString n else toString n

/-- Zero-padded four-digit field. -/
def pad4 (n : Nat) : String :=
  if n < 10 then "000" ++ toString n
  else if n < 100 then "00" ++ toString n
  else if n < 1000 then "0" ++ toString n
  else toString n

/-- `strftime('%Y-%m-%d')` of a date. -/
def dateISO (d : PyDate) : String :=
  pad4 d.year ++ "-" ++ pad2 d.month ++ "-" ++ pad2 d.day

/-- `str()` of a normalized (midnight) pandas Timestamp. -/
def strTimestamp (d : PyDate) : String :=
  dateISO d ++ " 00:00:00"

/-- Translation of `convert_to_period` (period_helpers.py lines 17-50):
`None`/unparseable dates give `None`; Daily gives the ISO date string;
Weekly formats `(iso_year, iso_week)` from `isocalendar()`; Monthly
formats `'%b %Y'`; any other `period_type` falls back to `str(date_val)`
(the code comment reads `Fallback for any other period type`). -/
def convert_to_period (date_value : Option PyDate) (period_type : String) :
    Option String :=
  match date_value with
  | none => none
  | some d =>
    if period_type = "Daily" then some (dateISO d)
    else if period_type = "Weekly" then
      some ("Week " ++ toString (isocalendar d).2 ++ " - " ++ toString (isocalendar d).1)
    else if period_type = "Monthly" then
      some (monthAbbr d.month ++ " " ++ toString d.year)
    else some (strTimestamp d)

/-- Python whitespace for `str.strip()`. -/
def isPySpace (c : Char) : Bool :=
  c = ' ' || c = '\t' || c = '\n' || c = '\r' || c = '\x0b' || c = '\x0c'

/-- Python `str.strip()`: drop whitespace from both ends. -/
def pyStrip (s : String) : String :=
  String.mk (((s.data.dropWhile isPySpace).reverse.dropWhile isPySpace).reverse)

/-- Python `str.startswith`. -/
def pyStartsWith (s pre : String) : Bool :=
  pre.data.isPrefixOf s.data

/-- Fuel-driven splitter on a non-empty separator; one unit of fuel per
character suffices because every step consumes at least one character. -/
def listSplitFuel (sep : List Char) : Nat → List Char → List (List Char)
  | 0, _ => [[]]
  | _, [] => [[]]
  | fuel + 1, c :: rest =>
    if sep.isPrefixOf (c :: rest) then
      [] :: listSplitFuel sep fuel ((c :: rest).drop sep.length)
    else
      match listSplitFuel sep fuel rest with
      | [] => [[c]]
      | t :: ts => (c :: t) :: ts

/-- Python `str.split(sep)` for a non-empty separator. -/
def pySplit (s sep : String) : List String :=
  (listSplitFuel sep.data (s.data.length + 1) s.data).map String.mk

/-- Fuel-driven replacement of every non-overlapping occurrence, left to
right, as Python `str.replace`. -/
def listReplaceFuel (old new : List Char) : Nat → List Char → List Char
  | 0, l => l
  | _, [] => []
  | fuel + 1, c :: rest =>
    if old.isPrefixOf (c :: rest) then
      new ++ listReplaceFuel old new fuel ((c :: rest).drop old.length)
    else c :: listReplaceFuel old new fuel rest

/-- Python `str.replace(old, new)` for a non-empty pattern. -/
def pyReplace (s old new : String) : String :=
  String.mk (listReplaceFuel old.data new.data (s.data.length + 1) s.data)

/-- Digits-only string fragment to a number (`none` when empty or when a
non-digit occurs). -/
def digitsToNat (cs : List Char) : Option Nat :=
  if cs = [] ∨ ¬ cs.all (·.isDigit) then none
  else some (cs.foldl (fun acc c => acc * 10 + (c.toNat - 48)) 0)

/-- Modelled Python `int()` on a string: surrounding whitespace, an
optional sign and decimal digits (digit-group underscores are not
modelled); every other input raises, modelled as `none`. -/
def pyInt (s : String) : Option Int :=
  match (pyStrip s).data with
  | [] => none
  | c :: cs =>
    if c = '-' then (digitsToNat cs).map (fun n => -(n : Int))
    else if c = '+' then (digitsToNat cs).map (fun n => (n : Int))
    else (digitsToNat (c :: cs)).map (fun n => (n : Int))

/-- The successful path of `parse_week_period` (period_helpers.py lines
52-84): split on `" - "`, require exactly two parts with the first
starting `"Week "`, strip the (all-occurrence) replacement of `"Week "`,
parse both ints, and accept weeks 1..53.  `none` collects every failing
path, including the `ValueError` of `int()` caught by the function's
`except` clause. -/
def weekParseAttempt (s : String) : Option (Int × Int) :=
  match pySplit s " - " with
  | [p0, p1] =>
    if pyStartsWith p0 "Week " then
      match pyInt (pyStrip (pyReplace p0 "Week " "")), pyInt (pyStrip p1) with
      | some week, some year =>
        if 1 ≤ week ∧ week ≤ 53 then some (year, week) else none
      | _, _ => none
    else none
  | _ => none

/-- Translation of `parse_week_period`: `None` and falsy inputs, and every
failing parse path, return the sentinel `(9999, 99)`. -/
def parse_week_period (period_str : Option String) : Int × Int :=
  match period_str with
  | none => (9999, 99)
  | some raw =>
    if raw = "" then (9999, 99)
    else (weekParseAttempt (pyStrip raw)).getD (9999, 99)

/-- Sort key returned by `parse_month_period`: a real month-start
Timestamp or the `pd.Timestamp.max` sentinel. -/
inductive MonthStamp where
  | ts (year month : Nat)
  | tsMax
deriving Repr, DecidableEq

/-- Ordinal of the earliest representable pandas Timestamp date,
1677-09-21. -/
def tsMinOrd : Int := toOrdinal ⟨1677, 9, 21⟩

/-- Ordinal of the latest representable pandas Timestamp date,
2262-04-11 (the date of `pd.Timestamp.max`). -/
def tsMaxOrd : Int := toOrdinal ⟨2262, 4, 11⟩

/-- Sort key of a `MonthStamp`: date ordinal plus an intraday component —
parsed month starts are midnight while `pd.Timestamp.max` lies at
23:47:16.854775807, strictly after midnight of its day. -/
def monthStampKey : MonthStamp → Int × Int
  | .ts y m => (toOrdinal ⟨y, m, 1⟩, 0)
  | .tsMax => (tsMaxOrd, 1)

/-- `strptime` month abbreviation lookup for `%b`. -/
def monthFromAbbr (s : String) : Option Nat :=
  match s with
  | "Jan" => some 1 | "Feb" => some 2 | "Mar" => some 3 | "Apr" => some 4
  | "May" => some 5 | "Jun" => some 6 | "Jul" => some 7 | "Aug" => some 8
  | "Sep" => some 9 | "Oct" => some 10 | "Nov" => some 11 | "Dec" => some 12
  | _ => none

/-- `strptime` `%Y` field: one to four decimal digits. -/
def pyYear4 (s : String) : Option Nat :=
  match digitsToNat s.data with
  | some n => if 1 ≤ s.length ∧ s.length ≤ 4 then some n else none
  | none => none

/-- The successful path of `parse_month_period` (period_helpers.py lines
87-104): `pd.to_datetime('01 ' ++ s, format='%d %b %Y')` requires a month
abbreviation and a year; constructing a Timestamp outside the pandas
bounds raises `OutOfBoundsDatetime`, caught by the `except` clause, so
out-of-bounds months also fail. -/
def monthParseAttempt (s : String) : Option (Nat × Nat) :=
  match pySplit s " " with
  | [mon, yr] =>
    match monthFromAbbr mon, pyYear4 yr with
    | some m, some y =>
      if tsMinOrd ≤ toOrdinal ⟨y, m, 1⟩ ∧ toOrdinal ⟨y, m, 1⟩ ≤ tsMaxOrd then
        some (y, m)
      else none
    | _, _ => none
  | _ => none

/-- Translation of `parse_month_period`: `None` and falsy inputs, and
every failing parse path, return `pd.Timestamp.max`. -/
def parse_month_period (period_str : Option String) : MonthStamp :=
  match period_str with
  | none => .tsMax
  | some raw =>
    if raw = "" then .tsMax
    else
      match monthParseAttempt (pyStrip raw) with
      | some (y, m) => .ts y m
      | none => .tsMax

/-- Modelled parser for `pd.to_datetime(s, errors='coerce')` restricted to
the `YYYY-MM-DD` keys the Daily resolver emits; every other string is
treated as coercing to `NaT` (`none`), as are out-of-bounds dates. -/
def pdToDatetime (s : String) : Option PyDate :=
  match pySplit s "-" with
  | [ys, ms, ds] =>
    match digitsToNat ys.data, digitsToNat ms.data, digitsToNat ds.data with
    | some y, some m, some d =>
      if ys.length = 4 ∧ ms.length = 2 ∧ ds.length = 2
          ∧ 1 ≤ m ∧ m ≤ 12 ∧ 1 ≤ d ∧ d ≤ daysInMonth y m
          ∧ tsMinOrd ≤ toOrdinal ⟨y, m, d⟩ ∧ toOrdinal ⟨y, m, d⟩ ≤ tsMaxOrd then
        some ⟨y, m, d⟩
      else none
    | _, _, _ => none
  | _ => none

/-- Translation of `is_past_period` (period_helpers.py lines 107-152):
compares the period's end boundary against the reference date; every
malformed key falls through to `return False` (sentinel parse results are
skipped by the `year < 9999` / `!= pd.Timestamp.max` guards, and
`datetime(year, 1, 4)` for a year below `MINYEAR` raises inside the
`try`, caught to `False`, modelled by the `year < 1` guard). -/
def is_past_period (period_str : Option String) (period_type : String)
    (reference_date : PyDate) : Bool :=
  match period_str with
  | none => false
  | some raw =>
    if raw = "" then false
    else
      let s := pyStrip raw
      if period_type = "Daily" then
        match pdToDatetime s with
        | some d => decide (toOrdinal d < toOrdinal reference_date)
        | none => false
      else if period_type = "Weekly" then
        let yw := parse_week_period (some s)
        if yw.1 < 9999 then
          if yw.1 < 1 then false
          else
            let jan4 := toOrdinal ⟨yw.1.toNat, 1, 4⟩
            let week_start := jan4 - (isoWeekdayOfOrdinal jan4 - 1)
            let target_week_start := week_start + 7 * (yw.2 - 1)
            let target_week_end := target_week_start + 6
            decide (target_week_end < toOrdinal reference_date)
        else false
      else if period_type = "Monthly" then
        match parse_month_period (some s) with
        | .ts y m =>
          let next_month :=
            if m = 12 then toOrdinal ⟨y + 1, 1, 1⟩ else toOrdinal ⟨y, m + 1, 1⟩
          decide (next_month ≤ toOrdinal reference_date)
        | .tsMax => false
      else false

/-- C7: the Weekly resolver formats every parseable date from its ISO
calendar pair as `"Week {week} - {iso_year}"`; Dec 31, 2024 lies in ISO
week 1 of 2025 and resolves to `"Week 1 - 2025"`, not `"Week 1 - 2024"`
or `"Week 53 - 2024"`. -/
theorem weekly_period_uses_iso_calendar :
    (∀ d : PyDate,
       convert_to_period (some d) "Weekly"
         = some ("Week " ++ toString (isocalendar d).2 ++ " - "
             ++ toString (isocalendar d).1))
    ∧ isocalendar ⟨2024, 12, 31⟩ = (2025, 1)
    ∧ convert_to_period (some ⟨2024, 12, 31⟩) "Weekly" = some "Week 1 - 2025"
    ∧ convert_to_period (some ⟨2024, 12, 31⟩) "Weekly" ≠ some "Week 1 - 2024"
    ∧ convert_to_period (some ⟨2024, 12, 31⟩) "Weekly" ≠ some "Week 53 - 2024" :=
  ⟨fun _ => rfl, by decide, by decide, by decide, by decide⟩

/-- C8 counterexample: invoking the period resolver with the unrecognized
`period_type` `"Quarterly"` does not fail — no `InputValidationError`
exists on this path; the code's fallback branch returns the stringified
timestamp and the calculation proceeds with it. -/
theorem unrecognized_period_type_counterexample :
    convert_to_period (some ⟨2024, 6, 15⟩) "Quarterly" = some "2024-06-15 00:00:00"
      ∧ convert_to_period (some ⟨2024, 6, 15⟩) "Quarterly" ≠ none :=
  ⟨by decide, by decide⟩

/-- C8 amended: for every `period_type` outside Daily/Weekly/Monthly the
resolver silently falls back to `str(date_val)` instead of raising. -/
theorem unrecognized_period_type_fallback (d : PyDate) (pt : String)
    (h1 : pt ≠ "Daily") (h2 : pt ≠ "Weekly") (h3 : pt ≠ "Monthly") :
    convert_to_period (some d) pt = some (strTimestamp d) := by
  simp [convert_to_period, h1, h2, h3]

/-- Witness for `unrecognized_period_type_fallback` at `"Quarterly"`. -/
theorem unrecognized_period_type_fallback_witness :
    convert_to_period (some ⟨2024, 6, 15⟩) "Quarterly"
      = some (strTimestamp ⟨2024, 6, 15⟩) :=
  unrecognized_period_type_fallback ⟨2024, 6, 15⟩ "Quarterly"
    (by decide) (by decide) (by decide)

/-- Every successful week parse carries a week number in 1..53. -/
theorem weekParseAttempt_week_bounds {s : String} {yw : Int × Int}
    (h : weekParseAttempt s = some yw) : 1 ≤ yw.2 ∧ yw.2 ≤ 53 := by
  unfold weekParseAttempt at h
  split at h
  · split at h
    · split at h
      · split at h
        · next hcond =>
          injection h with h2
          subst h2
          simpa using hcond
        · exact absurd h (by simp)
      · exact absurd h (by simp)
    · exact absurd h (by simp)
  · exact absurd h (by simp)

set_option maxRecDepth 8192 in
/-- Every successful month parse lies within the pandas Timestamp
bounds. -/
theorem monthParseAttempt_ord_bounds {s : String} {ym : Nat × Nat}
    (h : monthParseAttempt s = some ym) :
    tsMinOrd ≤ toOrdinal ⟨ym.1, ym.2, 1⟩ ∧ toOrdinal ⟨ym.1, ym.2, 1⟩ ≤ tsMaxOrd := by
  unfold monthParseAttempt at h
  split at h
  · split at h
    · split at h
      · next hcond =>
        injection h with h2
        subst h2
        simpa using hcond
      · exact absurd h (by simp)
    · exact absurd h (by simp)
  · exact absurd h (by simp)

/-- C9: the period parsers are total — every output of
`parse_week_period` is the `(9999, 99)` sentinel or a validated
`(year, week)` with week in 1..53, every output of `parse_month_period`
is `pd.Timestamp.max` or an in-bounds month start sorting strictly before
that sentinel; null, empty and malformed inputs map to the sentinels; and
`is_past_period` answers `false` (not past) on every malformed key in all
three modes instead of raising. -/
theorem period_parsers_degrade_gracefully :
    (∀ s : Option String,
       parse_week_period s = (9999, 99)
         ∨ ∃ y w : Int, parse_week_period s = (y, w) ∧ 1 ≤ w ∧ w ≤ 53)
    ∧ (∀ s : Option String,
       parse_month_period s = .tsMax
         ∨ (monthStampKey (parse_month_period s)).1 < (monthStampKey .tsMax).1
         ∨ ((monthStampKey (parse_month_period s)).1 = (monthStampKey .tsMax).1
             ∧ (monthStampKey (parse_month_period s)).2 < (monthStampKey .tsMax).2))
    ∧ (parse_week_period none = (9999, 99)
        ∧ parse_week_period (some "") = (9999, 99)
        ∧ parse_week_period (some "garbage") = (9999, 99)
        ∧ parse_week_period (some "Week x - 2024") = (9999, 99)
        ∧ parse_week_period (some "Week 60 - 2024") = (9999, 99)
        ∧ parse_month_period none = .tsMax
        ∧ parse_month_period (some "") = .tsMax
        ∧ parse_month_period (some "NotAMonth 2024") = .tsMax)
    ∧ (∀ (pt : String) (ref : PyDate), is_past_period none pt ref = false)
    ∧ (∀ (raw : String) (ref : PyDate),
        parse_week_period (some (pyStrip raw)) = (9999, 99) →
          is_past_period (some raw) "Weekly" ref = false)
    ∧ (∀ (raw : String) (ref : PyDate),
        parse_month_period (some (pyStrip raw)) = .tsMax →
          is_past_period (some raw) "Monthly" ref = false)
    ∧ (∀ (raw : String) (ref : PyDate),
        pdToDatetime (pyStrip raw) = none →
          is_past_period (some raw) "Daily" ref = false) := by
  refine ⟨?_, ?_, by decide, fun pt ref => rfl, ?_, ?_, ?_⟩
  · intro s
    cases s with
    | none => exact Or.inl rfl
    | some raw =>
      by_cases hraw : raw = ""
      · exact Or.inl (by simp [parse_week_period, hraw])
      · cases hw : weekParseAttempt (pyStrip raw) with
        | none => exact Or.inl (by simp [parse_week_period, hraw, hw])
        | some yw =>
          refine Or.inr ⟨yw.1, yw.2, ?_, (weekParseAttempt_week_bounds hw).1,
            (weekParseAttempt_week_bounds hw).2⟩
          simp [parse_week_period, hraw, hw]
  · intro s
    cases s with
    | none => exact Or.inl rfl
    | some raw =>
      by_cases hraw : raw = ""
      · exact Or.inl (by simp [parse_month_period, hraw])
      · cases hm : monthParseAttempt (pyStrip raw) with
        | none => exact Or.inl (by simp [parse_month_period, hraw, hm])
        | some ym =>
          obtain ⟨y, m⟩ := ym
          have hb := monthParseAttempt_ord_bounds hm
          have hpm : parse_month_period (some raw) = .ts y m := by
            simp [parse_month_period, hraw, hm]
          rcases lt_or_eq_of_le hb.2 with hlt | heq
          · exact Or.inr (Or.inl (by simp [hpm, monthStampKey]; exact hlt))
          · exact Or.inr (Or.inr (by simp [hpm, monthStampKey]; exact heq))
  · intro raw ref h
    by_cases hraw : raw = ""
    · simp [is_past_period, hraw]
    · simp [is_past_period, hraw, h]
  · intro raw ref h
    by_cases hraw : raw = ""
    · simp [is_past_period, hraw]
    · simp [is_past_period, hraw, h]
  · intro raw ref h
    by_cases hraw : raw = ""
    · simp [is_past_period, hraw]
    · simp [is_past_period, hraw, h]

/-- Witness for `period_parsers_degrade_gracefully`: a malformed weekly
key is reported as not past rather than raising. -/
theorem period_parsers_degrade_gracefully_witness :
    is_past_period (some "not a period") "Weekly" ⟨2025, 1, 1⟩ = false :=
  period_parsers_degrade_gracefully.2.2.2.2.1 "not a period" ⟨2025, 1, 1⟩
    (by decide)

end VtiGap
